import Mathlib

/-!
Verification of the plumbing-voice-bridge core against its specification.

The JavaScript source is shallowly embedded: JSON-like runtime values become
the inductive type `JsValue`, JavaScript exceptions become `Except JsError`,
and the mutable process state (session table, idempotency table, calendar
bookings, environment flags) becomes the explicit record `World` threaded
through each operation. Timestamps produced by `new Date().toISOString()` are
passed in as an explicit `now : String` argument.
-/

/-- JSON-like JavaScript runtime values, including `undefined`, mirroring the
payloads the tool router and idempotency layer pass around. -/
inductive JsValue where
| null
| undefined
| bool (b : Bool)
| num (n : Int)
| str (s : String)
| arr (elems : List JsValue)
| obj (fields : List (String × JsValue))

/-- JavaScript truthiness for the embedded values (`if (x)`); NaN and BigInt
do not occur in the embedded fragment. -/
def truthy : JsValue → Bool
| .null => false
| .undefined => false
| .bool b => b
| .num n => n != 0
| .str s => s != ""
| .arr _ => true
| .obj _ => true

/-- Test for the JavaScript `undefined` value (`x !== undefined` guards). -/
def isUndefinedJs : JsValue → Bool
| .undefined => true
| _ => false

/-- Code-unit lexicographic comparison of character lists, as used by the
default JavaScript string sort (our strings are ASCII, where UTF-16 code-unit
order and code-point order agree). -/
def lexLt : List Char → List Char → Bool
| [], [] => false
| [], _ :: _ => true
| _ :: _, [] => false
| a :: as, b :: bs =>
  if a.toNat < b.toNat then true
  else if b.toNat < a.toNat then false
  else lexLt as bs

/-- Strict string order used for `Object.keys(value).sort()` and
`localeCompare`-based sorting. -/
def strLtB (a b : String) : Bool := lexLt a.data b.data

/-- Insert one key/value pair into a key-sorted field list (stable). -/
def insertField (x : String × JsValue) : List (String × JsValue) → List (String × JsValue)
| [] => [x]
| y :: ys => if strLtB y.1 x.1 then y :: insertField x ys else x :: y :: ys

/-- Sort object fields by key, modelling `Object.keys(value).sort()` (keys of a
JavaScript object are unique, so stability questions do not arise). -/
def sortFields (l : List (String × JsValue)) : List (String × JsValue) :=
  l.foldr insertField []

mutual
/-- `canonicalize` from `src/governance/withIdempotency.js`: arrays are mapped
element-wise (order preserved), objects get their keys sorted and
`undefined`-valued fields dropped, primitives pass through. The source sorts
the keys before recursing into the values; since the sort compares keys only
and never touches values, sorting after the per-field recursion (done here so
the recursion is structural) yields the same result. -/
def canonicalize : JsValue → JsValue
| .arr l => .arr (canonList l)
| .obj fs => .obj (sortFields (canonFields fs))
| .null => .null
| .undefined => .undefined
| .bool b => .bool b
| .num n => .num n
| .str s => .str s

/-- Element-wise canonicalization of an array (`value.map(canonicalize)`). -/
def canonList : List JsValue → List JsValue
| [] => []
| v :: vs => canonicalize v :: canonList vs

/-- Field-wise canonicalization of an object: fields whose value is
`undefined` are dropped, the rest are canonicalized recursively. -/
def canonFields : List (String × JsValue) → List (String × JsValue)
| [] => []
| (k, v) :: fs =>
  if isUndefinedJs v then canonFields fs
  else (k, canonicalize v) :: canonFields fs
end

/-- Escape of one character inside a JSON string literal (the embedded strings
contain no control characters). -/
def jsonEscapeChar (c : Char) : String :=
  if c = '"' then "\\\""
  else if c = '\\' then "\\\\"
  else String.singleton c

/-- JSON string literal for `s`. -/
def jsonQuote (s : String) : String :=
  "\"" ++ String.join (s.data.map jsonEscapeChar) ++ "\""

mutual
/-- `JSON.stringify` on the embedded values. An `undefined` array element is
rendered as `null`, an `undefined` object field is dropped, exactly as in
JavaScript; a top-level `undefined` never reaches this function in the
embedded code paths. -/
def jsonStringify : JsValue → String
| .null => "null"
| .undefined => "null"
| .bool b => if b then "true" else "false"
| .num n => toString n
| .str s => jsonQuote s
| .arr l => "[" ++ String.intercalate "," (elemStrings l) ++ "]"
| .obj fs => "\x7b" ++ String.intercalate "," (fieldStrings fs) ++ "\x7d"

/-- Serialized forms of the elements of an array. -/
def elemStrings : List JsValue → List String
| [] => []
| v :: vs => jsonStringify v :: elemStrings vs

/-- Serialized forms of the fields of an object, dropping `undefined`. -/
def fieldStrings : List (String × JsValue) → List String
| [] => []
| (_, .undefined) :: fs => fieldStrings fs
| (k, v) :: fs => (jsonQuote k ++ ":" ++ jsonStringify v) :: fieldStrings fs
end

/-- `stableHashOfInputs` from `src/governance/withIdempotency.js`:
`sha256(JSON.stringify(canonicalize(inputs || {})))`. The SHA-256 digest is a
fixed injective-up-to-collisions function of its input text, so hash
equality and hash difference are modelled at the level of that input text:
the digest step is represented by the serialized canonical form itself
(collision-freeness of SHA-256 is assumed, the crypto library being outside
the repository). -/
def stableHashOfInputs (inputs : JsValue) : String :=
  jsonStringify (canonicalize (if truthy inputs then inputs else .obj []))

/-- `buildIdempotencyKey` from `src/governance/withIdempotency.js`. -/
def buildIdempotencyKey (tenant callSid operation : String) (inputs : JsValue) : String :=
  tenant ++ ":" ++ callSid ++ ":" ++ operation ++ ":" ++ stableHashOfInputs inputs

mutual
/-- The value obtained by `JSON.parse(JSON.stringify(v))`, which is what the
idempotency store hands back on a replay: `undefined` object fields are
dropped and `undefined` array elements become `null`. A top-level
`undefined` is never stored (see `setIdempotency`). -/
def jsonRoundTrip : JsValue → JsValue
| .null => .null
| .undefined => .null
| .bool b => .bool b
| .num n => .num n
| .str s => .str s
| .arr l => .arr (roundTripList l)
| .obj fs => .obj (roundTripFields fs)

/-- Round-trip of the elements of an array. -/
def roundTripList : List JsValue → List JsValue
| [] => []
| v :: vs => jsonRoundTrip v :: roundTripList vs

/-- Round-trip of the fields of an object, dropping `undefined` fields. -/
def roundTripFields : List (String × JsValue) → List (String × JsValue)
| [] => []
| (k, v) :: fs =>
  if isUndefinedJs v then roundTripFields fs
  else (k, jsonRoundTrip v) :: roundTripFields fs
end

/-! ## Call state machine (`src/runtime/stateMachine.js`) -/

/-- The ten-stage ordering `STATES` from `src/runtime/stateMachine.js`. -/
def STATES : List String :=
  ["CALL_STARTED", "IDENTITY_CHECKED", "ADDRESS_CONFIRMED", "PROBLEM_CAPTURED",
   "SCHEDULING", "BOOKED", "CONFIRMED_SMS_SENT", "LOGGED_TO_HUBSPOT",
   "ESCALATED", "CALL_ENDED"]

/-- Position of a string in a list, mirroring `Array.prototype.indexOf` on the
guarded paths where membership is already known. -/
def idxOf (s : String) : List String → Nat
| [] => 0
| x :: xs => if x = s then 0 else idxOf s xs + 1

/-- The fan-in set accepted for a transition into `LOGGED_TO_HUBSPOT`. -/
def LOG_FAN_IN : List String :=
  ["PROBLEM_CAPTURED", "SCHEDULING", "BOOKED", "CONFIRMED_SMS_SENT", "ESCALATED"]

/-- `canTransition(from, to)` from `src/runtime/stateMachine.js`, with the
no-prior-state value `null` embedded as `none`. -/
def canTransition (fromState : Option String) (toState : String) : Bool :=
  if toState ∈ STATES then
    match fromState with
    | none => decide (toState = "CALL_STARTED")
    | some f =>
      if f ∈ STATES ∧ f ≠ toState ∧ f ≠ "CALL_ENDED" then
        if toState = "CALL_ENDED" then true
        else if toState = "LOGGED_TO_HUBSPOT" then decide (f ∈ LOG_FAN_IN)
        else decide (idxOf toState STATES = idxOf f STATES + 1)
      else false
  else false

/-- The transition relation exactly as the specification claim words it: the
initial transition from no prior state, the terminal fan-in into
`CALL_ENDED`, the documented fan-in into `LOGGED_TO_HUBSPOT`, or a single
forward step in the fixed ordering; everything else (unknown names,
self-loops, moves out of the terminal stage, skips) is illegal. -/
def specCanTransition (fromState : Option String) (toState : String) : Bool :=
  match fromState with
  | none => decide (toState = "CALL_STARTED")
  | some f =>
    decide (toState = "CALL_ENDED" ∧ f ∈ STATES ∧ f ≠ "CALL_ENDED")
    || decide (toState = "LOGGED_TO_HUBSPOT" ∧ f ∈ LOG_FAN_IN)
    || decide (f ∈ STATES ∧ toState ∈ STATES ∧ idxOf toState STATES = idxOf f STATES + 1)

/-- Errors thrown by the embedded JavaScript, with the optional `code` and
`details` properties the tool router attaches. -/
structure JsError where
  message : String
  code : Option String := none
  details : Option JsValue := none

/-- One entry of a session audit log, as pushed by `transition`. -/
structure AuditEntry where
  ts : String
  callSid : String
  previousState : Option String
  nextState : String
  reason : String

/-- Rendering of `previousState || 'null'` in the transition error message
(an empty string is falsy in JavaScript). -/
def stateRepr : Option String → String
| none => "null"
| some s => if s = "" then "null" else s

/-- Message of the error thrown by `transition` on an illegal transition; it
carries the from/to pair textually. -/
def illegalTransitionMsg (fromState : Option String) (toState : String) : String :=
  "Invalid transition " ++ stateRepr fromState ++ " -> " ++ toState

/-! ## Sessions and the process state -/

/-- The `session.hubspot` context set by the HubSpot intake
(`crmReady` plus CRM object ids); `crmReady !== true` reads as `false`. -/
structure HubspotCtx where
  crmReady : Bool := false
  contactId : Option String := none
  dealId : Option String := none

/-- One proposed scheduling slot (`{startISO, endISO, label}`). -/
structure Slot where
  startISO : String
  endISO : String
  label : String

/-- The `session.scheduling` record written by `propose_slots`. -/
structure Scheduling where
  proposedSlots : List Slot
  proposedAtISO : String
  serviceRadius : Option JsValue := none

/-- The `session.contact` fields collected by `capture_identity`. -/
structure Contact where
  firstname : Option String := none
  lastname : Option String := none
  phone : Option String := none

/-- The `session.problem` fields collected by `capture_problem`. -/
structure Problem where
  problem_summary : Option String := none

/-- The `session.deployment` record written by `assertDeploymentAllowed`
(`category` embeds the field the source calls the status classification). -/
structure DeploymentInfo where
  status : Option String
  category : String
  allowed : Bool
  reason : String
  isTester : Bool

/-- A session record as created by `src/runtime/sessionStore.js` and mutated
by the tool router; fields the fresh session does not carry are `none`. -/
structure Session where
  callSid : String
  streamSid : String
  callerPhone : String
  state : Option String
  createdAt : String
  updatedAt : String
  lastSeenAt : String
  auditLog : List AuditEntry
  hubspot : Option HubspotCtx := none
  scheduling : Option Scheduling := none
  problem : Option Problem := none
  booking : Option JsValue := none
  contact : Option Contact := none
  deployment : Option DeploymentInfo := none
  callerPhoneE164 : Option String := none

/-- Association-list lookup, modelling `Map.prototype.get` and the keyed
sqlite row lookup. -/
def lookupAssoc {α : Type} : List (String × α) → String → Option α
| [], _ => none
| (k, v) :: rest, key => if k = key then some v else lookupAssoc rest key

/-- Association-list update, modelling `Map.prototype.set` (replaces an
existing binding, otherwise appends). -/
def setAssoc {α : Type} : List (String × α) → String → α → List (String × α)
| [], key, v => [(key, v)]
| (k, w) :: rest, key, v =>
  if k = key then (key, v) :: rest else (k, w) :: setAssoc rest key v

/-- The explicit process state: the session map, the idempotency store (its
enable flag, its initialization flag, and its table storing parse-of-stringify
images of the result payloads), the list of calendar events actually created
at the external calendar, and the environment/collaborator facts the embedded
paths read (HUBSPOT_ENABLED, the company deployment status returned by the CRM,
Google calendar configuration, TEST_CALLER_ALLOWLIST). -/
structure World where
  sessions : List (String × Session) := []
  idpEnabled : Bool := true
  idpInit : Bool := true
  idp : List (String × JsValue) := []
  bookings : List String := []
  hubspotEnabled : Bool := false
  hubspotCompanyStatus : Option String := none
  calendarConfigured : Bool := true
  googleCalendarId : Option String := none
  testCallerAllowlist : List String := []

/-- The fresh session object built by `createSession` in
`src/runtime/sessionStore.js`: `state: null`, empty audit log, all
bookkeeping timestamps set to now. -/
def freshSession (callSid streamSid callerPhone now : String) : Session :=
  { callSid := callSid, streamSid := streamSid, callerPhone := callerPhone,
    state := none, createdAt := now, updatedAt := now, lastSeenAt := now,
    auditLog := [] }

/-- `createSession` from `src/runtime/sessionStore.js`: builds a fresh session
and unconditionally `sessions.set(callSid, session)`, replacing any session
already stored under that call identifier. -/
def createSession (w : World) (callSid streamSid callerPhone now : String) :
    World × Session :=
  let session := freshSession callSid streamSid callerPhone now
  ({ w with sessions := setAssoc w.sessions callSid session }, session)

/-- `touchSession` from `src/runtime/sessionStore.js`: refresh the liveness
timestamps of an existing session, no-op when absent. -/
def touchSession (w : World) (callSid now : String) : World :=
  match lookupAssoc w.sessions callSid with
  | none => w
  | some s =>
    { w with sessions :=
        setAssoc w.sessions callSid { s with lastSeenAt := now, updatedAt := now } }

/-- `transition(session, nextState, reason)` from
`src/runtime/stateMachine.js`: validate with `canTransition`, then set the
state, refresh both timestamps and append exactly one audit entry; otherwise
throw the illegal-transition error carrying the from/to pair (the `!session`
guard of the source cannot arise here since sessions are not nullable in the
embedding). -/
def transition (s : Session) (nextState reason ts : String) : Except JsError Session :=
  if canTransition s.state nextState then
    .ok { s with
      state := some nextState
      updatedAt := ts
      lastSeenAt := ts
      auditLog := s.auditLog ++ [⟨ts, s.callSid, s.state, nextState, reason⟩] }
  else
    .error { message := illegalTransitionMsg s.state nextState }

/-- Message of the error thrown by `assertState`. -/
def assertStateMsg (allowed : List String) : String :=
  "Invalid session state. Expected one of: " ++ String.intercalate ", " allowed

/-- `assertState(session, allowedStates)` from `src/runtime/stateMachine.js`:
throws unless the session exists and its current state is in the allowed
list (a `null` state is never in the list). -/
def assertState (sOpt : Option Session) (allowed : List String) : Except JsError Unit :=
  match sOpt with
  | some s =>
    match s.state with
    | some st => if st ∈ allowed then .ok () else .error { message := assertStateMsg allowed }
    | none => .error { message := assertStateMsg allowed }
  | none => .error { message := assertStateMsg allowed }

/-! ## Idempotency store (`src/governance/idempotencyStore.js`) -/

/-- The error thrown by `ensureInitialized` when the store is used before
`initIdempotency` ran (reachable in non-production: the bootstrap logs the
failed initialization and continues). -/
def notInitError : JsError :=
  { message := "Idempotency store is not initialized. Call initIdempotency(dbPath) first." }

/-- `getIdempotency(key)`: throws if the store is not initialized, otherwise
returns the parsed stored payload, with `null` standing for an absent row
exactly as in the source. -/
def getIdempotency (w : World) (key : String) : Except JsError JsValue :=
  if w.idpInit then .ok ((lookupAssoc w.idp key).getD .null)
  else .error notInitError

/-- `setIdempotency(key, resultObj)`: throws if not initialized; an
`undefined` payload cannot be bound as a sqlite parameter
(`JSON.stringify(undefined)` is not a string) and throws; otherwise
`INSERT OR IGNORE` stores the stringify image once and never overwrites. -/
def setIdempotency (w : World) (key : String) (v : JsValue) : Except JsError World :=
  if w.idpInit then
    if isUndefinedJs v then .error { message := "Cannot bind an undefined result payload." }
    else
      match lookupAssoc w.idp key with
      | some _ => .ok w
      | none => .ok { w with idp := w.idp ++ [(key, jsonRoundTrip v)] }
  else .error notInitError

/-- `withIdempotency({key, fn})` from `src/governance/withIdempotency.js`:
bypass when IDP_ENABLED is false; otherwise return a truthy stored hit
without invoking `fn`, and on a miss invoke `fn` and record its result. The
effectful `fn` is embedded as a state transformer that may throw. -/
def withIdempotency (w : World) (key : String)
    (fn : World → World × Except JsError JsValue) : World × Except JsError JsValue :=
  if w.idpEnabled then
    match getIdempotency w key with
    | .error e => (w, .error e)
    | .ok hit =>
      if truthy hit then (w, .ok hit)
      else
        match fn w with
        | (w1, .error e) => (w1, .error e)
        | (w1, .ok result) =>
          match setIdempotency w1 key result with
          | .error e => (w1, .error e)
          | .ok w2 => (w2, .ok result)
  else fn w

/-! ## Helper lemmas about the association lists -/

theorem lookupAssoc_append_self {α : Type} (l : List (String × α)) (k : String) (v : α)
    (h : lookupAssoc l k = none) : lookupAssoc (l ++ [(k, v)]) k = some v := by
  induction l with
  | nil => simp [lookupAssoc]
  | cons p rest ih =>
    obtain ⟨k0, v0⟩ := p
    by_cases hk : k0 = k
    · simp [lookupAssoc, hk] at h
    · simp only [lookupAssoc, List.cons_append, if_neg hk] at h ⊢
      exact ih h

theorem lookupAssoc_append_ne {α : Type} (l : List (String × α)) (k k2 : String) (v : α)
    (h : k ≠ k2) : lookupAssoc (l ++ [(k2, v)]) k = lookupAssoc l k := by
  induction l with
  | nil => simp [lookupAssoc, Ne.symm h]
  | cons p rest ih =>
    obtain ⟨k0, v0⟩ := p
    by_cases hk : k0 = k
    · simp [lookupAssoc, hk]
    · simp only [lookupAssoc, List.cons_append, if_neg hk]
      exact ih

theorem lookupAssoc_setAssoc_self {α : Type} (l : List (String × α)) (k : String) (v : α) :
    lookupAssoc (setAssoc l k v) k = some v := by
  induction l with
  | nil => simp [lookupAssoc, setAssoc]
  | cons p rest ih =>
    obtain ⟨k0, v0⟩ := p
    by_cases hk : k0 = k
    · simp [lookupAssoc, setAssoc, hk]
    · simp only [setAssoc, if_neg hk, lookupAssoc]
      exact ih

theorem lookupAssoc_setAssoc_ne {α : Type} (l : List (String × α)) (k k2 : String) (v : α)
    (h : k2 ≠ k) : lookupAssoc (setAssoc l k v) k2 = lookupAssoc l k2 := by
  induction l with
  | nil => simp [lookupAssoc, setAssoc, Ne.symm h]
  | cons p rest ih =>
    obtain ⟨k0, v0⟩ := p
    by_cases hk : k0 = k
    · subst hk
      simp [lookupAssoc, setAssoc, Ne.symm h]
    · simp only [setAssoc, if_neg hk, lookupAssoc]
      by_cases hk2 : k0 = k2
      · simp [hk2]
      · simp only [if_neg hk2]
        exact ih

theorem faninSubsetStates : ∀ s ∈ LOG_FAN_IN, s ∈ STATES := by decide

/-- C1: over the ten-stage ordering together with the no-prior-state value
`null` (and arbitrary stage names), `canTransition(from, to)` returns true
exactly for the initial transition from `null` to `CALL_STARTED`, the
terminal fan-in into `CALL_ENDED` from any known non-terminal stage, the
documented fan-in into `LOGGED_TO_HUBSPOT` from the five listed stages, and
single forward steps of the fixed ordering; it returns false in every other
case (unknown names, self-loops, moves out of `CALL_ENDED`, skips). -/
theorem canTransition_matches_spec (fromState : Option String) (toState : String) :
    canTransition fromState toState = specCanTransition fromState toState := by
  cases fromState with
  | none =>
    by_cases h : toState = "CALL_STARTED"
    · subst h; decide
    · simp [canTransition, specCanTransition, h]
  | some f =>
    by_cases hf : f ∈ STATES
    · by_cases hto : toState ∈ STATES
      · simp only [STATES, List.mem_cons, List.mem_singleton, List.not_mem_nil,
          or_false] at hf hto
        rcases hf with rfl|rfl|rfl|rfl|rfl|rfl|rfl|rfl|rfl|rfl <;>
          rcases hto with rfl|rfl|rfl|rfl|rfl|rfl|rfl|rfl|rfl|rfl <;> decide
      · have h1 : toState ≠ "CALL_ENDED" := by
          intro he; exact hto (he ▸ (by decide : ("CALL_ENDED" : String) ∈ STATES))
        have h2 : toState ≠ "LOGGED_TO_HUBSPOT" := by
          intro he; exact hto (he ▸ (by decide : ("LOGGED_TO_HUBSPOT" : String) ∈ STATES))
        simp [canTransition, specCanTransition, hto, h1, h2]
    · have hfan : f ∉ LOG_FAN_IN := fun hx => hf (faninSubsetStates f hx)
      simp [canTransition, specCanTransition, hf, hfan]

/-- Wellformed mid-workflow stages: known stages strictly between the initial
and the terminal stage. -/
def midWorkflow (s : String) : Bool :=
  decide (s ∈ STATES) && decide (s ≠ "CALL_STARTED") && decide (s ≠ "CALL_ENDED")

/-- C6 counterexample: the number of mid-workflow stages that can transition
into `ESCALATED` is exactly one — not more than one as the claim states —
and in particular the mid-workflow stage `SCHEDULING` cannot escalate. -/
theorem escalated_fan_in_cex :
    (STATES.filter
      (fun s => midWorkflow s && canTransition (some s) "ESCALATED")).length = 1
    ∧ canTransition (some "SCHEDULING") "ESCALATED" = false := by
  exact ⟨by decide, by decide⟩

/-- C6 amended: `ESCALATED` is reachable through `canTransition` from exactly
one stage, its immediate predecessor `LOGGED_TO_HUBSPOT` in the fixed
ordering (the one-step rule); escalation has no multi-source fan-in — the
only fan-in exception of the machine is the one into `LOGGED_TO_HUBSPOT`. -/
theorem escalated_single_predecessor :
    STATES.filter (fun s => canTransition (some s) "ESCALATED")
      = ["LOGGED_TO_HUBSPOT"] := by
  decide

/-- C5: `transition` validates with `canTransition` and then applies the whole
update — state, both timestamps, exactly one appended audit entry carrying
timestamp, previous stage, next stage and reason — while an invalid request
produces exactly the illegal-transition error carrying the from/to pair and
returns the session record unchanged (the error branch constructs no session
at all). -/
theorem transition_applies_atomically (s : Session) (nextState reason ts : String) :
    (canTransition s.state nextState = true →
      transition s nextState reason ts = .ok { s with
        state := some nextState, updatedAt := ts, lastSeenAt := ts,
        auditLog := s.auditLog ++ [⟨ts, s.callSid, s.state, nextState, reason⟩] })
    ∧ (canTransition s.state nextState = false →
      transition s nextState reason ts
        = .error { message := illegalTransitionMsg s.state nextState }) := by
  constructor <;> intro h <;> simp [transition, h]

/-- Session used to witness the state-machine theorems at a concrete input. -/
def wfSession : Session := freshSession "CA5" "MZ5" "+15550000000" "t0"

/-- Witness for C5 at the initial transition of a freshly created session. -/
theorem transition_applies_atomically_witness :
    transition wfSession "CALL_STARTED" "twilio_stream_start" "t1" = .ok { wfSession with
      state := some "CALL_STARTED", updatedAt := "t1", lastSeenAt := "t1",
      auditLog := [⟨"t1", "CA5", none, "CALL_STARTED", "twilio_stream_start"⟩] } :=
  (transition_applies_atomically wfSession "CALL_STARTED" "twilio_stream_start" "t1").1
    (by decide)

/-- C9: the canonicalization hash is insensitive to object key order,
identifies an absent field with an `undefined` one, separates distinct
values, and preserves array order. -/
theorem stableHash_canonicalization_properties :
    stableHashOfInputs (.obj [("a", .num 1), ("b", .num 2)])
        = stableHashOfInputs (.obj [("b", .num 2), ("a", .num 1)])
    ∧ stableHashOfInputs (.obj [("a", .num 1)])
        = stableHashOfInputs (.obj [("a", .num 1), ("b", .undefined)])
    ∧ stableHashOfInputs (.obj [("a", .num 1)])
        ≠ stableHashOfInputs (.obj [("a", .num 2)])
    ∧ stableHashOfInputs (.obj [("a", .arr [.num 1, .num 2])])
        ≠ stableHashOfInputs (.obj [("a", .arr [.num 2, .num 1])]) := by
  exact ⟨rfl, rfl, by decide, by decide⟩

/-- C4: the idempotency store is insert-once. After a first successful write
of `r1` under a fresh key, a second write attempt under the same key is a
no-op `.ok` that leaves the whole store (and so the stored record) unchanged,
the stored record read back is the JSON round-trip image of `r1`, and no
later write under any key mutates or deletes it (`getIdempotency` reads the
store without modifying it by construction). The side condition on `r2`
restricts to JSON-serializable payloads, the only ones the callers produce. -/
theorem setIdempotency_insert_once (w w1 : World) (k : String) (r1 r2 : JsValue)
    (hAbsent : lookupAssoc w.idp k = none)
    (hFirst : setIdempotency w k r1 = .ok w1)
    (hr2 : isUndefinedJs r2 = false) :
    setIdempotency w1 k r2 = .ok w1
    ∧ getIdempotency w1 k = .ok (jsonRoundTrip r1)
    ∧ ∀ (k2 : String) (r : JsValue) (w2 : World), setIdempotency w1 k2 r = .ok w2 →
        lookupAssoc w2.idp k = some (jsonRoundTrip r1) := by
  by_cases hInit : w.idpInit
  · by_cases hU : isUndefinedJs r1
    · simp [setIdempotency, hInit, hU] at hFirst
    · simp only [setIdempotency, if_pos hInit, Bool.not_eq_true] at hFirst
      rw [if_neg (by simp [hU]), hAbsent] at hFirst
      have hw1 : w1 = { w with idp := w.idp ++ [(k, jsonRoundTrip r1)] } := by
        simpa [eq_comm] using hFirst
      subst hw1
      have hStored : lookupAssoc (w.idp ++ [(k, jsonRoundTrip r1)]) k
          = some (jsonRoundTrip r1) := lookupAssoc_append_self w.idp k _ hAbsent
      refine ⟨?_, ?_, ?_⟩
      · simp [setIdempotency, hInit, hr2, hStored]
      · simp [getIdempotency, hInit, hStored]
      · intro k2 r w2 hSet
        by_cases hUr : isUndefinedJs r
        · simp [setIdempotency, hInit, hUr] at hSet
        · simp only [setIdempotency, if_pos hInit] at hSet
          rw [if_neg (by simp [hUr])] at hSet
          by_cases hk2 : k2 = k
          · subst hk2
            rw [hStored] at hSet
            have : w2 = { w with idp := w.idp ++ [(k2, jsonRoundTrip r1)] } := by
              simpa [eq_comm] using hSet
            subst this
            exact hStored
          · cases hLook : lookupAssoc (w.idp ++ [(k, jsonRoundTrip r1)]) k2 with
            | some v0 =>
              rw [hLook] at hSet
              have : w2 = { w with idp := w.idp ++ [(k, jsonRoundTrip r1)] } := by
                simpa [eq_comm] using hSet
              subst this
              exact hStored
            | none =>
              rw [hLook] at hSet
              have : w2 = { w with idp :=
                  (w.idp ++ [(k, jsonRoundTrip r1)]) ++ [(k2, jsonRoundTrip r)] } := by
                simpa [eq_comm] using hSet
              subst this
              calc lookupAssoc ((w.idp ++ [(k, jsonRoundTrip r1)]) ++ [(k2, jsonRoundTrip r)]) k
                  = lookupAssoc (w.idp ++ [(k, jsonRoundTrip r1)]) k :=
                    lookupAssoc_append_ne _ k k2 _ (fun he => hk2 he.symm)
                _ = some (jsonRoundTrip r1) := hStored
  · simp [setIdempotency, hInit] at hFirst

/-- World used to witness the insert-once property at a concrete input. -/
def storeWitnessWorld : World := {}

/-- Witness for C4 at a concrete key and payload: the second write is a no-op
and the first payload is still read back. -/
theorem setIdempotency_insert_once_witness :
    setIdempotency { storeWitnessWorld with
        idp := [("k1", jsonRoundTrip (.obj [("x", .num 1)]))] } "k1" (.num 2)
      = .ok { storeWitnessWorld with
        idp := [("k1", jsonRoundTrip (.obj [("x", .num 1)]))] }
    ∧ getIdempotency { storeWitnessWorld with
        idp := [("k1", jsonRoundTrip (.obj [("x", .num 1)]))] } "k1"
      = .ok (jsonRoundTrip (.obj [("x", .num 1)])) :=
  ⟨(setIdempotency_insert_once storeWitnessWorld _ "k1" (.obj [("x", .num 1)]) (.num 2)
      rfl rfl rfl).1,
   (setIdempotency_insert_once storeWitnessWorld _ "k1" (.obj [("x", .num 1)]) (.num 2)
      rfl rfl rfl).2.1⟩

/-- C3 amended: with the store enabled and initialized, `withIdempotency`
serves a replay — without invoking the wrapped function — whenever a record
exists for the key and its stored payload is truthy (every object payload
is); a record holding a falsy payload is treated as a miss, because the
source tests the looked-up value (`if (hit)`), not row existence, and an
absent row surfaces as the same falsy `null`. When the wrapped function
throws, the call rethrows with no record written (the returned state is
exactly the wrapped function's state), so a later call with the same key and
nothing persisted executes its function and records that result. -/
theorem withIdempotency_contract
    (w w1 wr w2 : World) (k : String) (hit r : JsValue) (e : JsError)
    (fn g : World → World × Except JsError JsValue)
    (hEnabled : w.idpEnabled = true) (hInit : w.idpInit = true) :
    (lookupAssoc w.idp k = some hit → truthy hit = true →
       withIdempotency w k fn = (w, .ok hit))
    ∧ (lookupAssoc w.idp k = none → fn w = (w1, .error e) →
       withIdempotency w k fn = (w1, .error e))
    ∧ (wr.idpEnabled = true → wr.idpInit = true → lookupAssoc wr.idp k = none →
       g wr = (w2, .ok r) → isUndefinedJs r = false → lookupAssoc w2.idp k = none →
       w2.idpInit = true →
       withIdempotency wr k g
         = ({ w2 with idp := w2.idp ++ [(k, jsonRoundTrip r)] }, .ok r)) := by
  refine ⟨?_, ?_, ?_⟩
  · intro hLook hTruthy
    simp [withIdempotency, getIdempotency, hEnabled, hInit, hLook, hTruthy]
  · intro hLook hFn
    simp [withIdempotency, getIdempotency, hEnabled, hInit, hLook, truthy, hFn]
  · intro hE hI hLook hG hU hLook2 hI2
    simp [withIdempotency, getIdempotency, setIdempotency, hE, hI, hLook, truthy,
      hG, hU, hLook2, hI2]

/-- World used to witness the replay branch of the executor. -/
def replayWorld : World := { idp := [("key-a", .obj [("v", .num 1)])] }

/-- Probe function whose effect and result would be visible if it ran. -/
def replayProbe : World → World × Except JsError JsValue :=
  fun w => ({ w with bookings := w.bookings ++ ["ran"] }, .ok .null)

/-- Witness for the C3 amended contract: a truthy stored record is replayed
verbatim and the probe function never runs. -/
theorem withIdempotency_contract_witness :
    withIdempotency replayWorld "key-a" replayProbe
      = (replayWorld, .ok (.obj [("v", .num 1)])) :=
  (withIdempotency_contract replayWorld replayWorld replayWorld replayWorld
      "key-a" (.obj [("v", .num 1)]) .null { message := "" } replayProbe replayProbe
      rfl rfl).1 rfl rfl

/-- World holding a record whose stored payload is falsy. -/
def falsyRecordWorld : World := { idp := [("key-f", .bool false)] }

/-- Probe function with an observable side effect and a distinctive result. -/
def falsyProbe : World → World × Except JsError JsValue :=
  fun w => ({ w with bookings := w.bookings ++ ["side-effect"] }, .ok (.num 7))

/-- C3 counterexample: a record for the key exists (stored payload `false`),
yet `withIdempotency` invokes the function again — its side effect lands and
its fresh result is returned instead of the stored one — because the source
replays only truthy hits. -/
theorem withIdempotency_falsy_record_cex :
    lookupAssoc falsyRecordWorld.idp "key-f" = some (.bool false)
    ∧ (withIdempotency falsyRecordWorld "key-f" falsyProbe).2 = .ok (.num 7)
    ∧ (withIdempotency falsyRecordWorld "key-f" falsyProbe).1.bookings = ["side-effect"] :=
  ⟨rfl, rfl, rfl⟩

/-- C10: `createSession` on a call identifier that already has a live session
silently replaces it in the store with the fresh record — `state: null`,
empty audit log, bookkeeping reset to now — with no error raised and no
terminal transition recorded, while sessions under other identifiers are
untouched; the prior workflow state, collected fields and audit history are
no longer reachable from the store. -/
theorem createSession_replaces_live_session
    (w : World) (callSid streamSid callerPhone now : String) (sOld : Session)
    (hLive : lookupAssoc w.sessions callSid = some sOld) :
    (createSession w callSid streamSid callerPhone now).2
        = freshSession callSid streamSid callerPhone now
    ∧ lookupAssoc (createSession w callSid streamSid callerPhone now).1.sessions callSid
        = some (freshSession callSid streamSid callerPhone now)
    ∧ (freshSession callSid streamSid callerPhone now).state = none
    ∧ (freshSession callSid streamSid callerPhone now).auditLog = []
    ∧ ∀ other, other ≠ callSid →
        lookupAssoc (createSession w callSid streamSid callerPhone now).1.sessions other
          = lookupAssoc w.sessions other := by
  refine ⟨rfl, ?_, rfl, rfl, ?_⟩
  · exact lookupAssoc_setAssoc_self w.sessions callSid _
  · intro other hne
    exact lookupAssoc_setAssoc_ne w.sessions callSid other _ hne

/-- A mid-workflow session about to be clobbered by a duplicate stream start. -/
def liveSession : Session :=
  { freshSession "CA0" "MZ0" "+15550000001" "t0" with
    state := some "SCHEDULING",
    auditLog := [⟨"t0", "CA0", none, "CALL_STARTED", "twilio_stream_start"⟩] }

/-- World holding `liveSession` under its call identifier. -/
def liveWorld : World := { sessions := [("CA0", liveSession)] }

/-- Witness for C10: a second stream start with the same callSid replaces the
mid-workflow session with a fresh null-state session. -/
theorem createSession_replaces_live_session_witness :
    lookupAssoc (createSession liveWorld "CA0" "MZ1" "+15550000001" "t9").1.sessions "CA0"
      = some (freshSession "CA0" "MZ1" "+15550000001" "t9") :=
  (createSession_replaces_live_session liveWorld "CA0" "MZ1" "+15550000001" "t9"
      liveSession rfl).2.1

/-! ## Media relay readiness flags (`src/server.js` connection handler) -/

/-- Events relevant to the initial `response.create` logic of one call: the
AI socket open event (whose handler sends the one-time session configuration),
the caller stream `start` event, and caller media frames (whose handler never
touches the readiness flags). -/
inductive RelayEvent where
| aiOpen
| twilioStart
| callerMedia
deriving DecidableEq

/-- The per-call readiness flags of the connection handler, plus a count of
`response.create` messages actually sent to the AI socket (the socket is open
for the interleavings the claim quantifies over). -/
structure RelayFlags where
  openAiReady : Bool := false
  twilioStreamStarted : Bool := false
  sessionUpdateSent : Bool := false
  initialResponseCreateSent : Bool := false
  responseCreateCount : Nat := 0

/-- `maybeSendInitialResponseCreate` from `src/server.js`: send the begin
response signal only when not yet sent, the caller stream has started and the
session configuration went out; guard the send with the sent-once flag. -/
def maybeSendInitialResponseCreate (st : RelayFlags) : RelayFlags :=
  if st.initialResponseCreateSent || !st.twilioStreamStarted || !st.sessionUpdateSent then st
  else { st with initialResponseCreateSent := true,
                 responseCreateCount := st.responseCreateCount + 1 }

/-- One step of the two socket event streams, following the handlers in
`src/server.js`: the AI open handler marks the peer ready, sends the
session configuration (setting `sessionUpdateSent`) and calls
`maybeSendInitialResponseCreate`; the Twilio `start` handler marks the stream
started and replicates the same guarded send inline; a media frame leaves all
readiness flags alone. -/
def relayStep (st : RelayFlags) : RelayEvent → RelayFlags
| .aiOpen =>
  maybeSendInitialResponseCreate { st with openAiReady := true, sessionUpdateSent := true }
| .twilioStart =>
  let st1 := { st with twilioStreamStarted := true }
  if st1.openAiReady && st1.sessionUpdateSent && !st1.initialResponseCreateSent then
    { st1 with initialResponseCreateSent := true,
               responseCreateCount := st1.responseCreateCount + 1 }
  else st1
| .callerMedia => st

/-- The flag state after a sequence of events of one call. -/
def relayRun (evs : List RelayEvent) : RelayFlags := evs.foldl relayStep {}

/-- Closed form of the reachable flag states: both readiness bits track their
events, and the begin-response signal has been sent (once) exactly when both
have occurred. -/
def flagsOf (a t : Bool) : RelayFlags :=
  { openAiReady := a, sessionUpdateSent := a, twilioStreamStarted := t,
    initialResponseCreateSent := a && t,
    responseCreateCount := if a && t then 1 else 0 }

theorem relayStep_flagsOf (a t : Bool) (e : RelayEvent) :
    relayStep (flagsOf a t) e
      = flagsOf (a || decide (e = .aiOpen)) (t || decide (e = .twilioStart)) := by
  cases e <;> cases a <;> cases t <;> rfl

theorem relayRun_closed_form (evs : List RelayEvent) : ∀ a t : Bool,
    evs.foldl relayStep (flagsOf a t)
      = flagsOf (a || evs.any (fun e => decide (e = .aiOpen)))
                (t || evs.any (fun e => decide (e = .twilioStart))) := by
  induction evs with
  | nil => intro a t; simp
  | cons e tl ih =>
    intro a t
    rw [List.foldl_cons, relayStep_flagsOf, ih, List.any_cons, List.any_cons,
      Bool.or_assoc, Bool.or_assoc]

/-- C8: over every interleaving of the AI-side ready event and the caller-side
stream-start event (with any number of caller media frames interleaved), the
relay sends the initial `response.create` exactly once; moreover after every
prefix of the interleaving the number of sends is one if both the session
configuration has been sent and the caller stream has started, and zero
otherwise — so the signal never fires before both conditions hold, always
fires as soon as both hold, and never fires twice. -/
theorem initial_response_create_exactly_once (evs : List RelayEvent)
    (hA : RelayEvent.aiOpen ∈ evs) (hT : RelayEvent.twilioStart ∈ evs) :
    (relayRun evs).responseCreateCount = 1
    ∧ ∀ n : Nat, (relayRun (evs.take n)).responseCreateCount
        = if (relayRun (evs.take n)).sessionUpdateSent
            ∧ (relayRun (evs.take n)).twilioStreamStarted then 1 else 0 := by
  have hInit : ({} : RelayFlags) = flagsOf false false := rfl
  constructor
  · have h := relayRun_closed_form evs false false
    rw [relayRun, hInit, h]
    have ha : evs.any (fun e => decide (e = .aiOpen)) = true := by
      rw [List.any_eq_true]; exact ⟨_, hA, by simp⟩
    have ht : evs.any (fun e => decide (e = .twilioStart)) = true := by
      rw [List.any_eq_true]; exact ⟨_, hT, by simp⟩
    simp [flagsOf, ha, ht]
  · intro n
    have h := relayRun_closed_form (evs.take n) false false
    rw [relayRun, hInit, h]
    cases (evs.take n).any (fun e => decide (e = .aiOpen)) <;>
      cases (evs.take n).any (fun e => decide (e = .twilioStart)) <;>
        simp [flagsOf]

/-- Witness for C8 on a concrete interleaving: configuration-before-start with
a media frame in between still yields exactly one begin-response signal. -/
theorem initial_response_create_exactly_once_witness :
    (relayRun [RelayEvent.aiOpen, RelayEvent.callerMedia, RelayEvent.twilioStart]).responseCreateCount = 1 :=
  (initial_response_create_exactly_once
      [RelayEvent.aiOpen, RelayEvent.callerMedia, RelayEvent.twilioStart]
      (by decide) (by decide)).1

/-! ## Tool dispatch pipeline (`src/runtime/toolRouter.js` and collaborators) -/

/-- The uniform result shape of the pipeline: success carries the tool name,
resulting stage and tool-specific data; failure carries the tool name and a
structured error (code, message, optional details). -/
inductive ToolResult where
| ok (tool : String) (state : Option String) (data : List (String × JsValue))
| err (tool : String) (code : String) (message : String) (details : Option JsValue)

/-- `buildError` from `src/runtime/toolRouter.js`. -/
def buildError (tool code message : String) (details : Option JsValue) : ToolResult :=
  .err tool code message details

/-- `success` from `src/runtime/toolRouter.js`: the reported stage is the
session state at return time. -/
def toolSuccess (tool : String) (s : Session) (data : List (String × JsValue)) : ToolResult :=
  .ok tool s.state data

/-- The `ok` field of a result (`true` only for the success shape). -/
def toolOk : ToolResult → Bool
| .ok _ _ _ => true
| .err _ _ _ _ => false

/-- Error code carried by a failure result. -/
def toolErrCode : ToolResult → Option String
| .ok _ _ _ => none
| .err _ c _ _ => some c

/-- Whether a pipeline call returned (any) uniform result rather than
rejecting with a raw exception. -/
def exceptOk : Except JsError ToolResult → Bool
| .ok _ => true
| .error _ => false

/-- Whether a pipeline call returned the uniform success shape. -/
def exceptToolOk : Except JsError ToolResult → Bool
| .ok r => toolOk r
| .error _ => false

/-- Error code of the uniform failure shape (if that is what came back). -/
def exceptErrCode : Except JsError ToolResult → Option String
| .ok r => toolErrCode r
| .error _ => none

/-- The `booking` entry of a returned data payload. -/
def bookingOf : Except JsError ToolResult → Option JsValue
| .ok (.ok _ _ data) => lookupAssoc data "booking"
| _ => none

/-- Property read `payload.key` on a JSON value (absent keys and non-objects
read as `undefined`). -/
def getField : JsValue → String → JsValue
| .obj fs, k => (lookupAssoc fs k).getD .undefined
| _, _ => .undefined

/-- Truthiness of an optional string (`x || y` chains treat both a missing
value and the empty string as falsy). -/
def truthyOptStr : Option String → Bool
| some s => s != ""
| none => false

/-- First truthy value of a JavaScript `a || b || c` chain over strings,
defaulting to the chain tail value (possibly the empty string). -/
def firstTruthy : List (Option String) → String
| [] => ""
| o :: rest =>
  match o with
  | some s => if s = "" then firstTruthy rest else s
  | none => firstTruthy rest

/-- JavaScript whitespace characters occurring in the embedded strings. -/
def isJsSpace (c : Char) : Bool :=
  c == ' ' || c == '\t' || c == '\n' || c == '\r'

/-- `String.prototype.trim`. -/
def jsTrim (s : String) : String :=
  ⟨((s.data.dropWhile isJsSpace).reverse.dropWhile isJsSpace).reverse⟩

/-- `String.prototype.toLowerCase` on the ASCII strings of this code base. -/
def jsToLower (s : String) : String :=
  ⟨s.data.map Char.toLower⟩

/-- `String(x)` on the primitives the alerting context passes around (the
composite renderings never feed the embedded control flow). -/
def jsToString : JsValue → String
| .null => "null"
| .undefined => "undefined"
| .bool b => if b then "true" else "false"
| .num n => toString n
| .str s => s
| .arr _ => ""
| .obj _ => "[object Object]"

/-- `ALLOWED_TOOLS` from `src/runtime/toolRouter.js`. -/
def ALLOWED_TOOLS : List String :=
  ["capture_identity", "confirm_address", "capture_problem", "begin_scheduling",
   "propose_slots", "book_estimate", "request_sms_consent",
   "send_confirmation_sms", "escalate_call", "finalize_and_log"]

/-- `GATED_TOOLS` from `src/governance/deploymentGate.js`. -/
def GATED_TOOLS : List String :=
  ["begin_scheduling", "propose_slots", "book_estimate", "request_sms_consent",
   "send_confirmation_sms"]

/-- `FALLBACK_TESTERS` from `src/governance/deploymentGate.js`. -/
def FALLBACK_TESTERS : List String := ["+17162508937", "+17165471378"]

/-- `normalizeE164` from `src/governance/deploymentGate.js`: trim, then strip
whitespace, hyphens and parentheses (both branches of the E.164 shape test
return the stripped string, so the test is immaterial). -/
def normE164 (p : String) : String :=
  let raw := jsTrim p
  if raw = "" then raw
  else ⟨raw.data.filter (fun c => !(isJsSpace c || c == '-' || c == '(' || c == ')'))⟩

/-- `getTesterAllowlist` from `src/governance/deploymentGate.js`: fallback
testers plus the normalized nonempty entries of TEST_CALLER_ALLOWLIST, all
normalized once more on insertion. -/
def testerAllowlist (w : World) : List String :=
  (FALLBACK_TESTERS ++ ((w.testCallerAllowlist.map normE164).filter (fun s => s != ""))).map
    normE164

/-- `isTesterCaller` from `src/governance/deploymentGate.js`. -/
def isTesterCaller (w : World) (phone : String) : Bool :=
  let normalized := normE164 phone
  if normalized = "" then false else decide (normalized ∈ testerAllowlist w)

/-- `classifyDeploymentStatus` from `src/governance/deploymentGate.js`
(`category` names the classification). -/
def statusCategory (status : Option String) : String :=
  let st := jsToLower (jsTrim (status.getD ""))
  if st = "live" then "open"
  else if st = "not_deployed" ∨ st = "provisioning" ∨ st = "awaiting_forwarding" then "test_only"
  else if st = "suspended" ∨ st = "cancelled" then "blocked"
  else "unknown"

/-- Outcome record returned by `assertDeploymentAllowed`. -/
structure GateOut where
  allowed : Bool
  reason : String
  code : Option String
  category : String
  isTester : Bool

/-- `assertDeploymentAllowed` from `src/governance/deploymentGate.js`: an
ungated tool passes untouched; otherwise classify the deployment status,
check the tester allowlist, record the outcome on `session.deployment` and
return it. -/
def assertDeploymentAllowed (w : World) (s : Session) (toolName phone : String)
    (status : Option String) : Session × GateOut :=
  if toolName ∈ GATED_TOOLS then
    let category := statusCategory status
    let isTester := isTesterCaller w phone
    let outcome : Bool × String × Option String :=
      if category = "open" then (true, "status_open", none)
      else if category = "test_only" then
        (isTester,
         if isTester then "status_test_only_tester" else "deployment_test_only",
         if isTester then none else some "deployment_test_only")
      else if category = "blocked" then (false, "deployment_blocked", some "deployment_blocked")
      else (false, "deployment_unknown", some "deployment_unknown")
    let info : DeploymentInfo :=
      { status := status, category := category, allowed := outcome.1,
        reason := outcome.2.1, isTester := isTester }
    let s1 := { s with deployment := some info }
    (s1, { allowed := outcome.1, reason := outcome.2.1, code := outcome.2.2,
           category := category, isTester := isTester })
  else (s, { allowed := true, reason := "not_gated", code := none,
             category := "", isTester := false })

/-- Store an updated session under its call identifier (in the source the
session object is mutated in place and the map holds the same reference). -/
def updSession (w : World) (callSid : String) (s : Session) : World :=
  { w with sessions := setAssoc w.sessions callSid s }

/-- `enforceDeploymentGate` from `src/runtime/toolRouter.js`: only gated tools
are checked; they require HUBSPOT_ENABLED and a CRM-ready session, then the
company deployment status fetched from the CRM (`getCompanyById` is the
external CRM collaborator of §6, embedded as a successful remote read of the
recorded status) decides through `assertDeploymentAllowed`. -/
def enforceDeploymentGate (w : World) (callSid toolName : String) (s : Session) :
    World × Option ToolResult :=
  if toolName ∈ GATED_TOOLS then
    if w.hubspotEnabled = false ∨ ((s.hubspot.map HubspotCtx.crmReady).getD false) = false then
      (w, some (buildError toolName "crm_not_ready" "CRM is not ready for this operation" none))
    else
      let status := w.hubspotCompanyStatus
      let phone := firstTruthy [s.callerPhoneE164, s.contact.bind Contact.phone,
        some s.callerPhone]
      let gateRes := assertDeploymentAllowed w s toolName phone status
      let w1 := updSession w callSid gateRes.1
      if gateRes.2.allowed then (w1, none)
      else
        (w1, some (buildError toolName ((gateRes.2.code).getD "deployment_unknown")
          "Deployment status does not allow this tool"
          (some (.obj [("deployment_status",
              match status with | some st => .str st | none => .null),
            ("reason", .str gateRes.2.reason)]))))
  else (w, none)

/-! ## Alerting (`src/monitoring/alerting.js`) -/

/-- The values of `ALERT_EVENT_TYPES`. -/
def ALERT_EVENT_VALUES : List String :=
  ["hubspot_write_failure", "calendar_booking_failure", "twilio_stream_failure",
   "openai_session_failure", "oauth_refresh_failure"]

/-- Rendering of `String(x || fallback).trim() || fallback` used on the
context fields of `buildNormalizedPayload`. -/
def normCtxString (v : JsValue) (fallback : String) : String :=
  let raw := if truthy v then jsToString v else fallback
  let t := jsTrim raw
  if t = "" then fallback else t

/-- The payload normalized by `buildNormalizedPayload`. -/
structure NormPayload where
  eventType : String
  callSid : String
  streamSid : String
  source : String
  message : String
  errorCode : JsValue
  status : JsValue
  timestamp : String
  context : JsValue

/-- Whether a value has JavaScript `typeof x === "object"` with `x` truthy
(arrays included, `null` excluded). -/
def isObjLike : JsValue → Bool
| .obj _ => true
| .arr _ => true
| _ => false

/-- `buildNormalizedPayload` from `src/monitoring/alerting.js`. -/
def buildNormalizedPayload (eventType : String) (context : JsValue) (now : String) :
    NormPayload :=
  { eventType := eventType
    callSid := normCtxString (getField context "callSid") "unknown-call"
    streamSid := normCtxString (getField context "streamSid") "unknown-stream"
    source := jsTrim (if truthy (getField context "source")
      then jsToString (getField context "source") else "plumbing-voice-bridge")
    message := normCtxString (getField context "message") "Unknown failure"
    errorCode := if truthy (getField context "errorCode")
      then getField context "errorCode" else .null
    status := if truthy (getField context "status")
      then getField context "status" else .null
    timestamp := now
    context := if isObjLike context then context else .obj [] }

/-- The alert idempotency key
`alert:<eventType>:<callSid>:<stableHashOfInputs(payload.context)>`. -/
def alertKey (p : NormPayload) : String :=
  "alert:" ++ p.eventType ++ ":" ++ p.callSid ++ ":" ++ stableHashOfInputs p.context

/-- `sendOwnerSms` from `src/monitoring/alerting.js` in the modelled
environment: OWNER_ALERT_PHONE_E164 is unset, so the function logs and skips;
the configured branch performs external HTTP whose failure would in any case
be absorbed by the try/catch around the two sends in `alertCritical`. -/
def sendOwnerSms (w : World) : World × Except JsError JsValue :=
  (w, .ok (.obj [("skipped", .bool true), ("reason", .str "missing_owner_phone")]))

/-- `sendOwnerEmail` from `src/monitoring/alerting.js`, modelled like
`sendOwnerSms` (OWNER_ALERT_EMAIL unset). -/
def sendOwnerEmail (w : World) : World × Except JsError JsValue :=
  (w, .ok (.obj [("skipped", .bool true), ("reason", .str "missing_owner_email")]))

/-- The `ok:false` return of `alertCritical` when a send threw. -/
def alertSendFailed (p : NormPayload) (key : String) (e : JsError) : JsValue :=
  .obj [("ok", .bool false), ("deduped", .bool false), ("eventType", .str p.eventType),
        ("idempotencyKey", .str key), ("error", .str e.message)]

/-- `alertCritical(eventType, context)` from `src/monitoring/alerting.js`:
reject unknown event types; dedup via the idempotency store; run both sends
inside a try whose catch returns an `ok:false` result; then record and
return the sent result. The store accesses sit outside that try, so a store
failure (for example an uninitialized store) propagates as an exception. -/
def alertCritical (w : World) (eventType : String) (context : JsValue) (now : String) :
    World × Except JsError JsValue :=
  if eventType ∈ ALERT_EVENT_VALUES then
    let p := buildNormalizedPayload eventType context now
    let key := alertKey p
    match getIdempotency w key with
    | .error e => (w, .error e)
    | .ok existing =>
      if truthy existing then
        (w, .ok (.obj [("ok", .bool true), ("deduped", .bool true),
          ("eventType", .str p.eventType), ("idempotencyKey", .str key),
          ("result", existing)]))
      else
        match sendOwnerSms w with
        | (w1, .error e) => (w1, .ok (alertSendFailed p key e))
        | (w1, .ok sms) =>
          match sendOwnerEmail w1 with
          | (w2, .error e) => (w2, .ok (alertSendFailed p key e))
          | (w2, .ok email) =>
            let result : JsValue := .obj [("sent", .bool true),
              ("eventType", .str p.eventType), ("callSid", .str p.callSid),
              ("streamSid", .str p.streamSid), ("sms", sms), ("email", email),
              ("sentAt", .str now)]
            match setIdempotency w2 key result with
            | .error e => (w2, .error e)
            | .ok w3 =>
              (w3, .ok (.obj [("ok", .bool true), ("deduped", .bool false),
                ("eventType", .str p.eventType), ("idempotencyKey", .str key),
                ("result", result)]))
  else (w, .error { message := "Unknown alert eventType: " ++ eventType })

/-! ## Calendar client (`src/integrations/calendarClient.js`) -/

/-- One attendee record passed to `bookSlot`. -/
structure Attendee where
  email : Option String := none
  phone : Option String := none

/-- Normalization of one attendee in `normalizeAttendees`: lower-cased trimmed
email, trimmed phone, dropped when both are empty, otherwise an object
carrying only the nonempty fields. -/
def normalizeAttendee (a : Attendee) : Option JsValue :=
  let email := jsToLower (jsTrim (a.email.getD ""))
  let phone := jsTrim (a.phone.getD "")
  if email = "" ∧ phone = "" then none
  else some (.obj
    ((if email = "" then [] else [("email", JsValue.str email)])
      ++ (if phone = "" then [] else [("phone", JsValue.str phone)])))

/-- Insertion into a list sorted by serialized form (the
`JSON.stringify(a).localeCompare(JSON.stringify(b))` comparator). -/
def insertByRepr (x : JsValue) : List JsValue → List JsValue
| [] => [x]
| y :: ys => if strLtB (jsonStringify y) (jsonStringify x) then y :: insertByRepr x ys
             else x :: y :: ys

/-- `normalizeAttendees` from `src/integrations/calendarClient.js`. -/
def normalizeAttendees (l : List Attendee) : List JsValue :=
  (l.filterMap normalizeAttendee).foldr insertByRepr []

/-- Arguments of `bookSlot`. -/
structure BookArgs where
  callSid : String
  slotStartISO : String
  slotEndISO : String
  summary : String
  description : String
  attendees : List Attendee

/-- The error thrown by `assertCalendarConfigured` when the Google
environment variables are missing. -/
def calendarNotConfiguredError : JsError :=
  { message := "Missing required Google Calendar environment variable(s)" }

/-- `createCalendarEvent` from `src/integrations/calendarClient.js`: require
the calendar configuration, then create the event at the external Google
endpoint. The HTTP layer is the excluded calendar collaborator of §6 and is
embedded as a successful remote call whose response echoes the slot and
yields a fresh event id; the created event is appended to the bookings
ledger so the number of real calendar events is observable. -/
def createCalendarEvent (w : World) (slotStartISO slotEndISO : String) :
    World × Except JsError JsValue :=
  if w.calendarConfigured then
    let id := "evt-" ++ toString w.bookings.length
    ({ w with bookings := w.bookings ++ [id] },
      .ok (.obj [("calendarEventId", .str id), ("htmlLink", .null),
        ("startISO", .str slotStartISO), ("endISO", .str slotEndISO)]))
  else (w, .error calendarNotConfiguredError)

/-- `bookSlot` from `src/integrations/calendarClient.js`: normalize the
attendees, derive the idempotency key from tenant, call identifier,
operation name and canonicalized inputs (`description` intentionally not part
of the key), and run the event creation through `withIdempotency`. An unset
GOOGLE_CALENDAR_ID enters the inputs as `undefined` and is dropped by the
canonicalization, as in the source. -/
def bookSlot (w : World) (args : BookArgs) : World × Except JsError JsValue :=
  let normalized := normalizeAttendees args.attendees
  let inputs : JsValue := .obj [
    ("calendarId", match w.googleCalendarId with | some id => .str id | none => .undefined),
    ("slotStartISO", .str args.slotStartISO),
    ("slotEndISO", .str args.slotEndISO),
    ("summary", .str args.summary),
    ("attendeePhonesOrEmails", .arr normalized)]
  let key := buildIdempotencyKey "single" args.callSid "calendar_book_event" inputs
  withIdempotency w key (fun w0 => createCalendarEvent w0 args.slotStartISO args.slotEndISO)

/-! ## HubSpot collaborator stubs and the book_estimate handler -/

/-- `hubspotClient.updateDealStage`: the excluded CRM collaborator of §6,
embedded as a successful remote call (as in the repository's smoke harness);
nothing in the embedded control flow reads its result. -/
def hubspotUpdateDealStage (w : World) : World × Except JsError JsValue :=
  (w, .ok (.obj [("ok", .bool true)]))

/-- `hubspotClient.logEngagement`: the excluded CRM collaborator of §6,
embedded as a successful remote call. -/
def hubspotLogEngagement (w : World) : World × Except JsError JsValue :=
  (w, .ok (.obj [("ok", .bool true)]))

/-- The `illegal_state` error `assertAllowedState` wraps around the
`assertState` throw, carrying the current state and the allowed list. -/
def illegalStateError (st : Option String) (allowed : List String) : JsError :=
  { message := assertStateMsg allowed
    code := some "illegal_state"
    details := some (.obj [
      ("state", match st with
        | some s => if s = "" then .null else .str s
        | none => .null),
      ("allowedStates", .arr (allowed.map JsValue.str))]) }

/-- `assertAllowedState` from `src/runtime/toolRouter.js`: rethrow the
`assertState` failure with the `illegal_state` code and details. -/
def assertAllowedState (sOpt : Option Session) (allowed : List String) :
    Except JsError Unit :=
  match assertState sOpt allowed with
  | .ok _ => .ok ()
  | .error _ => .error (illegalStateError (sOpt.bind Session.state) allowed)

/-- `assertTransitionAllowed` from `src/runtime/toolRouter.js` (the message
interpolates a `null` state as the text `null`, per template semantics). -/
def assertTransitionAllowed (s : Session) (nextState : String) : Except JsError Unit :=
  if canTransition s.state nextState then .ok ()
  else .error
    { message := "Illegal transition " ++ (match s.state with
        | some st => st
        | none => "null") ++ " -> " ++ nextState
      code := some "illegal_state"
      details := some (.obj [
        ("from", match s.state with | some st => .str st | none => .null),
        ("to", .str nextState)]) }

/-- `hasCrmSchedulingContext` from `src/runtime/toolRouter.js`. -/
def hasCrmSchedulingContext (s : Session) : Bool :=
  match s.hubspot with
  | some h => h.crmReady && truthyOptStr h.contactId && truthyOptStr h.dealId
  | none => false

/-- The `missing_prerequisites` error of `assertSchedulingPreconditions`. -/
def schedulingPrereqError : JsError :=
  { message := "Scheduling requires crmReady with contact and deal IDs"
    code := some "missing_prerequisites" }

/-- `findSelectedSlot(payload, proposedSlots)` from
`src/runtime/toolRouter.js`: a truthy `slotStartISO` must match a proposed
slot exactly (a truthy non-string never matches, as strict equality against
the slot strings fails); otherwise a non-null `slotIndex` must be an integer
within range; otherwise the payload is rejected. -/
def findSelectedSlot (payload : JsValue) (slots : List Slot) : Except JsError Slot :=
  if truthy (getField payload "slotStartISO") then
    match (match getField payload "slotStartISO" with
      | .str s => slots.find? (fun slot => slot.startISO == s)
      | _ => none) with
    | some slot => .ok slot
    | none => .error
      { message := "Selected slot does not exist in proposed slots"
        code := some "invalid_payload"
        details := some (.obj [("field", .str "slotStartISO")]) }
  else
    match getField payload "slotIndex" with
    | .undefined => .error
      { message := "book_estimate requires slotStartISO or slotIndex"
        code := some "invalid_payload"
        details := some (.obj [("field", .str "slotStartISO|slotIndex")]) }
    | .null => .error
      { message := "book_estimate requires slotStartISO or slotIndex"
        code := some "invalid_payload"
        details := some (.obj [("field", .str "slotStartISO|slotIndex")]) }
    | .num n =>
      if 0 ≤ n ∧ n < slots.length then
        .ok ((slots.get? n.toNat).getD ⟨"", "", ""⟩)
      else .error
        { message := "slotIndex is out of range"
          code := some "invalid_payload"
          details := some (.obj [("field", .str "slotIndex")]) }
    | _ => .error
      { message := "slotIndex is out of range"
        code := some "invalid_payload"
        details := some (.obj [("field", .str "slotIndex")]) }

/-- `x || fallback` on optional strings (both absence and the empty string
fall back). -/
def orFallback (o : Option String) (fallback : String) : String :=
  match o with
  | some v => if v = "" then fallback else v
  | none => fallback

/-- The calendar event summary built by `handleBookEstimate`:
`` `Plumbing Estimate - ${firstname || 'Customer'} ${lastname || ''}`.trim() ``. -/
def bookSummary (s : Session) : String :=
  jsTrim ("Plumbing Estimate - "
    ++ orFallback (s.contact.bind Contact.firstname) "Customer" ++ " "
    ++ orFallback (s.contact.bind Contact.lastname) "")

/-- The type of a tool handler in the embedding: process state, call
identifier, payload and clock in; process state and either a uniform result
or a thrown exception out. -/
def Handler : Type :=
  World → String → JsValue → String → World × Except JsError ToolResult

/-- The catch block of `handleBookEstimate`: log, raise a critical alert
(whose own store access may throw, which then propagates), optionally note
the failure in the CRM (successful-stub collaborator), and return the
`calendar_booking_failed` failure shape. -/
def bookEstimateCatch (w : World) (callSid : String) (s : Session) (e : JsError)
    (now : String) : World × Except JsError ToolResult :=
  let ctx : JsValue := .obj [
    ("callSid", .str callSid), ("streamSid", .str s.streamSid),
    ("source", .str "toolRouter.handleBookEstimate"),
    ("message", .str e.message),
    ("errorCode", .str (e.code.getD "calendar_booking_failed"))]
  match alertCritical w "calendar_booking_failure" ctx now with
  | (w1, .error e2) => (w1, .error e2)
  | (w1, .ok _) =>
    (w1, .ok (buildError "book_estimate" "calendar_booking_failed"
      "Failed to book estimate slot" (some (.obj [("message", .str e.message)]))))

/-- `handleBookEstimate` from `src/runtime/toolRouter.js`: allowed only in
`SCHEDULING`; requires the CRM scheduling context, proposed slots and a
problem summary; resolves the selected slot; then, inside its try block,
books the slot through the idempotent calendar client, stores the booking on
the session, updates the CRM deal and notes the booking (successful-stub
collaborators), checks and applies the transition to `BOOKED`, and returns
the success shape carrying the booking; any throw inside the try is handled
by `bookEstimateCatch`. -/
def handleBookEstimate : Handler := fun w callSid payload now =>
  let sOpt := lookupAssoc w.sessions callSid
  match assertAllowedState sOpt ["SCHEDULING"] with
  | .error e => (w, .error e)
  | .ok _ =>
    match sOpt with
    | none => (w, .error (illegalStateError none ["SCHEDULING"]))
    | some s =>
      if hasCrmSchedulingContext s then
        let proposedSlots := (s.scheduling.map Scheduling.proposedSlots).getD []
        if proposedSlots.isEmpty then
          let eSlots : JsError :=
            { message := "No proposed slots available to book",
              code := some "missing_prerequisites",
              details := some (.obj [("field", .str "scheduling.proposedSlots")]) }
          (w, .error eSlots)
        else
          let problemSummary := (s.problem.bind Problem.problem_summary).getD ""
          if problemSummary = "" then
            let eSummary : JsError :=
              { message := "problem_summary is required before booking",
                code := some "missing_prerequisites",
                details := some (.obj [("field", .str "problem.problem_summary")]) }
            (w, .error eSummary)
          else
            match findSelectedSlot payload proposedSlots with
            | .error e => (w, .error e)
            | .ok slot =>
              let args : BookArgs :=
                { callSid := callSid, slotStartISO := slot.startISO,
                  slotEndISO := slot.endISO, summary := bookSummary s,
                  description := "Problem summary: " ++ problemSummary,
                  attendees := [{ phone := some s.callerPhone }] }
              match bookSlot w args with
              | (w1, .error e) => bookEstimateCatch w1 callSid s e now
              | (w1, .ok booking) =>
                let s1 := { s with booking := some booking }
                let w2 := updSession w1 callSid s1
                match hubspotUpdateDealStage w2 with
                | (w3, .error e) => bookEstimateCatch w3 callSid s1 e now
                | (w3, .ok _) =>
                  match hubspotLogEngagement w3 with
                  | (w4, .error e) => bookEstimateCatch w4 callSid s1 e now
                  | (w4, .ok _) =>
                    match assertTransitionAllowed s1 "BOOKED" with
                    | .error e => bookEstimateCatch w4 callSid s1 e now
                    | .ok _ =>
                      match transition s1 "BOOKED" "tool:book_estimate" now with
                      | .error e => bookEstimateCatch w4 callSid s1 e now
                      | .ok s2 =>
                        (updSession w4 callSid s2,
                         .ok (toolSuccess "book_estimate" s2 [("booking", booking)]))
      else (w, .error schedulingPrereqError)

/-- The `alertEventTypeByTool` table of the `dispatchTool` catch handler. -/
def alertEventTypeByTool (t : String) : Option String :=
  if t = "book_estimate" then some "calendar_booking_failure"
  else if t = "send_confirmation_sms" then some "twilio_stream_failure"
  else if t = "capture_identity" ∨ t = "confirm_address" ∨ t = "capture_problem"
    ∨ t = "request_sms_consent" ∨ t = "finalize_and_log" then
    some "hubspot_write_failure"
  else none

/-- The catch block of `dispatchTool`: tools with an alert mapping first raise
a critical alert — whose store access may itself throw, in which case that
exception propagates out of the pipeline — and the caught error is converted
to the uniform failure shape. -/
def dispatchStreamSid (w : World) (callSid : String) : String :=
  match lookupAssoc w.sessions callSid with
  | some s => if s.streamSid = "" then "unknown-stream" else s.streamSid
  | none => "unknown-stream"

/-- The alert context object built inside the catch block of `dispatchTool`
(`getSession(callSid)?.streamSid || 'unknown-stream'` embedded in
`dispatchStreamSid`). -/
def dispatchAlertCtx (w : World) (callSid toolName : String) (e : JsError) : JsValue :=
  .obj [
    ("callSid", .str callSid),
    ("streamSid", .str (dispatchStreamSid w callSid)),
    ("source", .str "toolRouter.dispatchTool"),
    ("message", .str e.message),
    ("errorCode", .str (e.code.getD "tool_error")),
    ("toolName", .str toolName)]

def dispatchCatch (w : World) (callSid toolName : String) (e : JsError) (now : String) :
    World × Except JsError ToolResult :=
  match alertEventTypeByTool toolName with
  | none => (w, .ok (buildError toolName (e.code.getD "tool_error") e.message e.details))
  | some eventType =>
    match alertCritical w eventType (dispatchAlertCtx w callSid toolName e) now with
    | (w1, .error e2) => (w1, .error e2)
    | (w1, .ok _) =>
      (w1, .ok (buildError toolName (e.code.getD "tool_error") e.message e.details))

/-- `dispatchTool({callSid, toolName, payload})` from
`src/runtime/toolRouter.js`, parametric in the handler table (only the
`book_estimate` handler is embedded; the other entries of the source table
are not needed by the verified properties): refresh liveness, look up the
session, reject unknown and unimplemented tools, run the deployment gate,
run the handler, and convert any throw through the catch block. -/
def dispatchTool (handlers : String → Option Handler) (w : World)
    (callSid toolName : String) (payload : JsValue) (now : String) :
    World × Except JsError ToolResult :=
  match lookupAssoc (touchSession w callSid now).sessions callSid with
  | none => (touchSession w callSid now, .ok (buildError toolName "session_not_found"
      "Session not found for callSid" none))
  | some s =>
    if toolName ∈ ALLOWED_TOOLS then
      match handlers toolName with
      | none => (touchSession w callSid now, .ok (buildError toolName "not_implemented"
          "Tool handler not implemented" none))
      | some h =>
        match enforceDeploymentGate (touchSession w callSid now) callSid toolName s with
        | (w2, some gateErr) => (w2, .ok gateErr)
        | (w2, none) =>
          match h w2 callSid payload now with
          | (w3, .ok res) => (w3, .ok res)
          | (w3, .error e) => dispatchCatch w3 callSid toolName e now
    else (touchSession w callSid now,
      .ok (buildError toolName "invalid_tool" "Tool is not allowed" none))

/-- The handler table used by the verified scenarios: the embedded
`book_estimate` handler. -/
def bookHandlers : String → Option Handler :=
  fun t => if t = "book_estimate" then some handleBookEstimate else none

/-! ## The pipeline boundary (C7) -/

theorem touchSession_idpInit (w : World) (callSid now : String) :
    (touchSession w callSid now).idpInit = w.idpInit := by
  unfold touchSession
  split <;> rfl

theorem enforceDeploymentGate_idpInit (w : World) (callSid toolName : String) (s : Session) :
    (enforceDeploymentGate w callSid toolName s).1.idpInit = w.idpInit := by
  unfold enforceDeploymentGate updSession
  split
  · split
    · rfl
    · dsimp only
      split <;> rfl
  · rfl

theorem alertEventTypeByTool_mem (t ev : String)
    (h : alertEventTypeByTool t = some ev) : ev ∈ ALERT_EVENT_VALUES := by
  unfold alertEventTypeByTool at h
  split at h
  · cases h; decide
  · split at h
    · cases h; decide
    · split at h
      · cases h; decide
      · cases h

theorem alertCritical_returns (w : World) (t : String) (ctx : JsValue) (now : String)
    (ht : t ∈ ALERT_EVENT_VALUES) (hInit : w.idpInit = true) :
    ∃ w2 v, alertCritical w t ctx now = (w2, Except.ok v) := by
  unfold alertCritical getIdempotency sendOwnerSms sendOwnerEmail setIdempotency
  rw [if_pos ht]
  dsimp only
  rw [if_pos hInit]
  dsimp only
  split
  · exact ⟨_, _, rfl⟩
  · rw [if_neg (by simp [isUndefinedJs])]
    cases lookupAssoc w.idp (alertKey (buildNormalizedPayload t ctx now)) with
    | some v0 => exact ⟨_, _, rfl⟩
    | none => exact ⟨_, _, rfl⟩

theorem dispatchCatch_returns (w : World) (callSid toolName : String) (e : JsError)
    (now : String) (hInit : w.idpInit = true) :
    ∃ w2 res, dispatchCatch w callSid toolName e now = (w2, Except.ok res) := by
  unfold dispatchCatch
  cases halert : alertEventTypeByTool toolName with
  | none => exact ⟨_, _, rfl⟩
  | some ev =>
    obtain ⟨w2, v, hac⟩ := alertCritical_returns w ev
      (dispatchAlertCtx w callSid toolName e) now
      (alertEventTypeByTool_mem toolName ev halert) hInit
    dsimp only
    rw [hac]
    exact ⟨_, _, rfl⟩

/-- C7 amended: provided the idempotency store backing the alerting path is
initialized (and the handler does not itself flip that initialization), every
dispatch — any call identifier, tool name, payload, and any handler behavior,
including a handler that throws — returns the uniform result shape; no
exception escapes the pipeline boundary. Without the store proviso the
boundary leaks: see the counterexample. -/
theorem dispatch_uniform_when_store_ready
    (handlers : String → Option Handler) (w : World)
    (callSid toolName : String) (payload : JsValue) (now : String)
    (hInit : w.idpInit = true)
    (hPres : ∀ t h, handlers t = some h →
      ∀ w0 cs p n, ((h w0 cs p n).1).idpInit = w0.idpInit) :
    exceptOk (dispatchTool handlers w callSid toolName payload now).2 = true := by
  unfold dispatchTool
  have hTouch : (touchSession w callSid now).idpInit = true := by
    rw [touchSession_idpInit]; exact hInit
  cases hlook : lookupAssoc (touchSession w callSid now).sessions callSid with
  | none => rfl
  | some s =>
    dsimp only
    by_cases hmem : toolName ∈ ALLOWED_TOOLS
    · rw [if_pos hmem]
      cases hh : handlers toolName with
      | none => rfl
      | some h =>
        dsimp only
        cases hgate : enforceDeploymentGate (touchSession w callSid now) callSid toolName s with
        | mk w2 og =>
          have hInit2 : w2.idpInit = true := by
            have := enforceDeploymentGate_idpInit (touchSession w callSid now) callSid toolName s
            rw [hgate] at this
            rw [this]; exact hTouch
          cases og with
          | some gateErr => rfl
          | none =>
            dsimp only
            cases hrun : h w2 callSid payload now with
            | mk w3 r =>
              cases r with
              | ok res => rfl
              | error e =>
                dsimp only
                have hInit3 : w3.idpInit = true := by
                  have := hPres toolName h hh w2 callSid payload now
                  rw [hrun] at this
                  rw [this]; exact hInit2
                obtain ⟨w4, res, hc⟩ := dispatchCatch_returns w3 callSid toolName e now hInit3
                rw [hc]
                rfl
    · rw [if_neg hmem]
      rfl

/-- World used to witness the uniform-shape theorem at a concrete input. -/
def readyStoreWorld : World := {}

/-- Witness for the C7 amended theorem with an initialized store and an empty
handler table. -/
theorem dispatch_uniform_when_store_ready_witness :
    exceptOk (dispatchTool (fun _ => none) readyStoreWorld "CA" "book_estimate"
      (.obj []) "t").2 = true :=
  dispatch_uniform_when_store_ready (fun _ => none) readyStoreWorld "CA"
    "book_estimate" (.obj []) "t" rfl (fun t h hEq => Option.noConfusion hEq)

/-- A session stuck in `BOOKED` whose `book_estimate` dispatch will throw an
`illegal_state` error inside the handler. -/
def c7Session : Session :=
  { callSid := "CA7", streamSid := "MZ7", callerPhone := "+15550001111",
    state := some "BOOKED", createdAt := "t0", updatedAt := "t0", lastSeenAt := "t0",
    auditLog := [],
    hubspot := some { crmReady := true, contactId := some "contact-1",
                      dealId := some "deal-1" } }

/-- A reachable process state with the idempotency store not initialized (the
bootstrap continues without it outside production) and the deployment gate
open. -/
def c7World : World :=
  { sessions := [("CA7", c7Session)], idpInit := false, hubspotEnabled := true,
    hubspotCompanyStatus := some "live" }

/-- C7 counterexample: with the idempotency store uninitialized, a
`book_estimate` dispatch whose handler throws reaches the catch handler,
whose own `alertCritical` call throws out of the store access; the exception
propagates to the caller as a raw rejection instead of the uniform failure
shape. -/
theorem dispatch_raw_rejection_cex :
    exceptOk (dispatchTool bookHandlers c7World "CA7" "book_estimate"
      (.obj []) "t1").2 = false := rfl

/-! ## The book_estimate replay scenario (C2) -/

/-- The proposed slot of the scenario. -/
def c2Slot : Slot :=
  { startISO := "2026-01-06T14:00:00.000Z", endISO := "2026-01-06T15:00:00.000Z",
    label := "Slot 1" }

/-- A session ready for booking: state `SCHEDULING`, CRM context established,
one proposed slot, a captured problem summary and the caller identity. -/
def c2Session : Session :=
  { callSid := "CA2", streamSid := "MZ2", callerPhone := "+15550001111",
    state := some "SCHEDULING", createdAt := "t0", updatedAt := "t0", lastSeenAt := "t0",
    auditLog := [],
    hubspot := some { crmReady := true, contactId := some "contact-1",
                      dealId := some "deal-1" },
    scheduling := some { proposedSlots := [c2Slot], proposedAtISO := "t0" },
    problem := some { problem_summary := some "Water heater replacement estimate" },
    contact := some { firstname := some "Ada", lastname := some "Lovelace" } }

/-- Process state before the first invocation: live deployment status, the
calendar configured, the idempotency store empty. -/
def c2World : World :=
  { sessions := [("CA2", c2Session)], hubspotEnabled := true,
    hubspotCompanyStatus := some "live", googleCalendarId := some "cal-1" }

/-- The payload selecting the proposed slot by its start time. -/
def c2Payload : JsValue := .obj [("slotStartISO", .str "2026-01-06T14:00:00.000Z")]

/-- The booking created by the first invocation. -/
def c2Booking : JsValue :=
  .obj [("calendarEventId", .str "evt-0"), ("htmlLink", .null),
        ("startISO", .str "2026-01-06T14:00:00.000Z"),
        ("endISO", .str "2026-01-06T15:00:00.000Z")]

/-- The canonicalization inputs of the calendar idempotency key for this
scenario. -/
def c2Inputs : JsValue :=
  .obj [("calendarId", .str "cal-1"),
        ("slotStartISO", .str "2026-01-06T14:00:00.000Z"),
        ("slotEndISO", .str "2026-01-06T15:00:00.000Z"),
        ("summary", .str "Plumbing Estimate - Ada Lovelace"),
        ("attendeePhonesOrEmails", .arr [.obj [("phone", .str "+15550001111")]])]

/-- The idempotency key of the scenario booking. -/
def c2Key : String := buildIdempotencyKey "single" "CA2" "calendar_book_event" c2Inputs

/-- The session after the first successful `book_estimate`: state `BOOKED`,
the booking stored, gate outcome recorded, one audit entry appended. -/
def c2SessionAfter : Session :=
  { c2Session with
    state := some "BOOKED", updatedAt := "t1", lastSeenAt := "t1",
    auditLog := [⟨"t1", "CA2", some "SCHEDULING", "BOOKED", "tool:book_estimate"⟩],
    booking := some c2Booking,
    deployment := some { status := some "live", category := "open", allowed := true,
                         reason := "status_open", isTester := false } }

/-- The process state after the first successful `book_estimate`: exactly one
calendar event created and its result recorded under the idempotency key. -/
def c2WorldAfter : World :=
  { c2World with
    sessions := [("CA2", c2SessionAfter)],
    idp := [(c2Key, c2Booking)],
    bookings := ["evt-0"] }

/-- The first invocation evaluates to the success result and the state
`c2WorldAfter`. -/
theorem c2_first_eval :
    dispatchTool bookHandlers c2World "CA2" "book_estimate" c2Payload "t1"
      = (c2WorldAfter, .ok (ToolResult.ok "book_estimate" (some "BOOKED")
          [("booking", c2Booking)])) := rfl

/-- The second invocation with the same call identifier and slot, on the
state left by the first. -/
def c2Second : World × Except JsError ToolResult :=
  dispatchTool bookHandlers c2WorldAfter "CA2" "book_estimate" c2Payload "t2"

/-- C2 counterexample: the first `book_estimate` invocation succeeds and
creates one calendar booking, but the second invocation with the same call
identifier and slot is not served as a replay: the session now sits in
`BOOKED`, the handler's stage guard throws, and the dispatch returns the
uniform failure `illegal_state` (no second booking is created either). -/
theorem book_estimate_duplicate_rejected_cex :
    dispatchTool bookHandlers c2World "CA2" "book_estimate" c2Payload "t1"
      = (c2WorldAfter, .ok (ToolResult.ok "book_estimate" (some "BOOKED")
          [("booking", c2Booking)]))
    ∧ exceptToolOk c2Second.2 = false
    ∧ exceptErrCode c2Second.2 = some "illegal_state"
    ∧ c2Second.1.bookings = ["evt-0"] :=
  ⟨c2_first_eval, rfl, rfl, rfl⟩

/-- The state of the repository's own smoke scenario for the replay: the
session state is put back to `SCHEDULING` before the second invocation (the
smoke script sets `session.state = 'SCHEDULING'`). -/
def c2ReplayWorld : World :=
  { c2WorldAfter with
    sessions := [("CA2", { c2SessionAfter with state := some "SCHEDULING" })] }

/-- The second invocation run from `SCHEDULING`, as in the smoke script. -/
def c2Replay : World × Except JsError ToolResult :=
  dispatchTool bookHandlers c2ReplayWorld "CA2" "book_estimate" c2Payload "t2"

set_option maxRecDepth 8000 in
/-- C2 amended: when the session is back in the tool's allowed stage
`SCHEDULING` at the second invocation — as the repository's smoke scenario
arranges — both invocations return `ok:true` carrying the same booking
payload, the second being served as a replay through the idempotency store,
and exactly one calendar booking exists across both. -/
theorem book_estimate_replay_amended :
    dispatchTool bookHandlers c2World "CA2" "book_estimate" c2Payload "t1"
      = (c2WorldAfter, .ok (ToolResult.ok "book_estimate" (some "BOOKED")
          [("booking", c2Booking)]))
    ∧ exceptToolOk c2Replay.2 = true
    ∧ bookingOf c2Replay.2 = some c2Booking
    ∧ bookingOf (Except.ok (ToolResult.ok "book_estimate" (some "BOOKED")
        [("booking", c2Booking)])) = some c2Booking
    ∧ c2Replay.1.bookings = ["evt-0"] :=
  ⟨c2_first_eval, rfl, rfl, rfl, rfl⟩
